import Mathlib

/-!
# Verification of the aipodcast backend core logic

Shallow embedding of the core pure logic of the `aipodcast` repository:

* `AIService._parse_dialogue_script` (src/backend/app/services/ai_service.py),
  the multi-speaker dialogue segmenter, including a faithful model of the
  Python regex `^([A-Za-z一-龥][A-Za-z一-龥\s0-9]*?)[:：]\s*(.*)$`
  compiled without `re.MULTILINE`, of `str.strip`, `str.split('\n')`,
  `' '.join`, and of the `re.sub(pattern, r'\2', script)` fallback.
* `AIService.generate_script_from_topic` / `AIService._call_gemini_api`,
  the two-phase script-generation orchestrator (with the external
  text-generation capability as an explicit oracle parameter).
* the creation handlers `upload_file` and `generate_podcast`
  (src/backend/app/api/podcasts.py), modelled over an explicit store state
  with failure injection for the external record/blob writes.
* the JSON-code-fence handling and degraded fallback of
  `ContentExtractor._analyze_audio_with_gemini` / `_analyze_video_with_gemini`
  (src/backend/app/services/content_extractor.py), with `json.loads`
  as an explicit oracle parameter.
* `YouTubeExtractor.download_subtitles` (src/backend/app/services/youtube_extractor.py),
  whose body references the global name `yt_dlp` that the module never imports.

Text is modelled as `List Char`; Python strings and Lean strings share the
same code points, so character classes are defined on `Char.toNat`.
-/

/-! ## Character classes (Python `str.strip` / regex `\s`, regex label classes) -/

/-- Python whitespace, as recognised both by `str.strip()` with no argument and
by the regex class `\s` in unicode mode: ASCII whitespace, the C1 separators,
and the Unicode space separators. -/
def isPySpace (c : Char) : Bool :=
  let n := c.toNat
  (9 ≤ n && n ≤ 13) || n == 28 || n == 29 || n == 30 || n == 31 || n == 32 ||
  n == 0x85 || n == 0xa0 || n == 0x1680 ||
  (0x2000 ≤ n && n ≤ 0x200a) || n == 0x2028 || n == 0x2029 ||
  n == 0x202f || n == 0x205f || n == 0x3000

/-- First character of the speaker-label regex: `[A-Za-z一-龥]`
(a Latin letter or a CJK ideograph; note: no digit, no space). -/
def isLabelStart (c : Char) : Bool :=
  let n := c.toNat
  (65 ≤ n && n ≤ 90) || (97 ≤ n && n ≤ 122) || (0x4e00 ≤ n && n ≤ 0x9fa5)

/-- ASCII decimal digit `0-9`. -/
def isAsciiDigit (c : Char) : Bool :=
  48 ≤ c.toNat && c.toNat ≤ 57

/-- Subsequent label characters of the speaker-label regex:
`[A-Za-z一-龥\s0-9]` (letters, CJK, whitespace, digits). -/
def isLabelChar (c : Char) : Bool :=
  isLabelStart c || isAsciiDigit c || isPySpace c

/-- The colon alternatives of the regex: ASCII `:` or full-width `：`. -/
def isColon (c : Char) : Bool :=
  c.toNat == 58 || c.toNat == 0xff1a

/-! ## Python string primitives -/

/-- Python `str.strip()` on a character list: drop `isPySpace` characters
from both ends. -/
def pyStrip (l : List Char) : List Char :=
  ((l.dropWhile isPySpace).reverse.dropWhile isPySpace).reverse

/-- Python `s.split('\n')`: split at every newline; the empty string yields
`[""]`, and separators at the ends yield empty fields. -/
def splitOnNl : List Char → List (List Char)
  | [] => [[]]
  | c :: cs =>
    let r := splitOnNl cs
    if c = '\n' then [] :: r
    else
      match r with
      | h :: t => (c :: h) :: t
      | [] => [[c]]

/-- Python `' '.join(fragments)`. -/
def joinSpace (frags : List (List Char)) : List Char :=
  List.intercalate [' '] frags

/-! ## The speaker-label regex

`speaker_pattern = re.compile(r'^([A-Za-z一-龥][A-Za-z一-龥\s0-9]*?)[:：]\s*(.*)$')`

Semantics derivation: the lazy group 1 expands through label-class characters
only, and a colon is not a label-class character, so the sole candidate
boundary is the first non-label-class character, which must then be a colon.
After the colon, greedy `\s*` takes the maximal whitespace run, `(.*)` (which
cannot cross `'\n'`) takes the maximal newline-free run, and `$` (no
`re.MULTILINE`) accepts only at the end of the input or just before a single
final `'\n'`. -/

/-- Split a character list at the first character that is not in the regex
label class (returns the label-class prefix and the remainder). -/
def splitAtFirstNonLabel : List Char → List Char × List Char
  | [] => ([], [])
  | c :: cs =>
    if isLabelChar c then
      let p := splitAtFirstNonLabel cs
      (c :: p.1, p.2)
    else ([], c :: cs)

/-- Match `\s*(.*)$` against the text following the colon. Returns
`some (group2, trailing)` where `trailing` is the final `'\n'` left
unconsumed when `$` matched just before it, otherwise `[]`. -/
def tailMatch (rs : List Char) : Option (List Char × List Char) :=
  if (rs.dropWhile isPySpace).dropWhile (fun c => c ≠ '\n') = [] then
    some ((rs.dropWhile isPySpace).takeWhile (fun c => c ≠ '\n'), [])
  else if (rs.dropWhile isPySpace).dropWhile (fun c => c ≠ '\n') = ['\n'] then
    some ((rs.dropWhile isPySpace).takeWhile (fun c => c ≠ '\n'), ['\n'])
  else none

/-- `speaker_pattern.match(l)`, anchored at position 0: on success returns
`some (group1, group2, trailing)` where `trailing` is an unconsumed final
newline (nonempty only when matching a raw multi-line script in `re.sub`). -/
def matchSpeaker (l : List Char) : Option (List Char × List Char × List Char) :=
  match l with
  | [] => none
  | c :: cs =>
    if isLabelStart c then
      match splitAtFirstNonLabel cs with
      | (mid, r :: rest) =>
        if isColon r then
          match tailMatch rest with
          | some (g2, tr) => some (c :: mid, g2, tr)
          | none => none
        else none
      | (_, []) => none
    else none

/-- `re.sub(speaker_pattern, r'\2', s)`: the pattern is anchored by `^`
without `re.MULTILINE`, so it can only match at position 0; the matched span
is replaced by group 2, the unconsumed trailing newline (if any) remains. -/
def reSubSpeaker (s : List Char) : List Char :=
  match matchSpeaker s with
  | some (_, g2, tr) => g2 ++ tr
  | none => s

/-! ## The voice registry (`self.voice_mappings`) -/

/-- The per-language pair of ElevenLabs voice ids. -/
structure VoicePair where
  primary : String
  secondary : String
deriving DecidableEq, Repr

/-- `self.voice_mappings.get(language, self.voice_mappings["en"])`:
the static mapping from language code to its voice pair, defaulting to
the English pair for unknown languages. -/
def voice_mappings (language : String) : VoicePair :=
  if language = "en" then
    ⟨"CwhRBWXzGAHq8TQ4Fs17", "21m00Tcm4TlvDq8ikWAM"⟩
  else if language = "zh" then
    ⟨"CwhRBWXzGAHq8TQ4Fs17", "9BWtsMINqrJLrRacOk9x"⟩
  else
    ⟨"CwhRBWXzGAHq8TQ4Fs17", "21m00Tcm4TlvDq8ikWAM"⟩

/-! ## The dialogue segmenter (`AIService._parse_dialogue_script`) -/

/-- One element of the returned `dialogue_inputs` list. The source constructs
`DialogueInput(text=…, voice_id=…, voice_settings=voice_settings)` where
`voice_settings` is the same constant object for every segment (elided here).
The `speaker` field records the value of `current_speaker` at the moment the
segment was appended (`none` for the zero-segments fallback); the source drops
it after using it to look up `voice_id`, and it is kept here because the
spec's Dialogue Segment carries the speaker label. -/
structure DialogueInput where
  speaker : Option (List Char)
  text : List Char
  voice_id : String
deriving DecidableEq, Repr

/-- Look up a speaker's assigned voice in the first-seen-order association
list (`speaker_voice_map`, with `speaker_order` given by the list order). -/
def lookupVoice (m : List (List Char × String)) (label : List Char) : Option String :=
  match m with
  | [] => none
  | (k, v) :: rest => if k = label then some v else lookupVoice rest label

/-- Voice chosen for the `n`-th distinct speaker (`n = len(speaker_order)`
just after appending): `n == 1 → primary`, `n == 2 → secondary`, otherwise
`primary` iff `n` is odd. -/
def pickVoice (voices : VoicePair) (n : Nat) : String :=
  if n = 1 then voices.primary
  else if n = 2 then voices.secondary
  else if n % 2 = 1 then voices.primary
  else voices.secondary

/-- The `if speaker_label not in speaker_voice_map:` block: a label not yet
bound is appended with the voice picked from the new length of
`speaker_order`; a label already bound leaves the map unchanged. -/
def assignVoice (voices : VoicePair) (m : List (List Char × String))
    (label : List Char) : List (List Char × String) :=
  match lookupVoice m label with
  | some _ => m
  | none => m ++ [(label, pickVoice voices (m.length + 1))]

/-- The mutable accumulator of the parsing loop: `dialogue_inputs`,
`current_speaker`, `current_text`, and `speaker_voice_map`/`speaker_order`
(merged into one first-seen-ordered association list). -/
structure ParseState where
  segments : List DialogueInput
  currentSpeaker : Option (List Char)
  currentText : List (List Char)
  voiceMap : List (List Char × String)
deriving Repr

/-- The flush block that closes the open segment (run both on a new label
match and after the loop): when `current_text` and `current_speaker` are both
truthy and the space-joined stripped text is nonempty, the segment is
appended. -/
def flushSegments (st : ParseState) : List DialogueInput :=
  match st.currentSpeaker with
  | none => st.segments
  | some sp =>
    if st.currentText = [] then st.segments
    else if pyStrip (joinSpace st.currentText) = [] then st.segments
    else st.segments ++
      [⟨some sp, pyStrip (joinSpace st.currentText), (lookupVoice st.voiceMap sp).getD ""⟩]

/-- One iteration of `for line in lines:`.  The line is stripped; an empty
line is skipped; a speaker-label match closes the open segment, binds the new
label if unseen, and reopens with the text after the colon; any other line is
appended to the open segment's fragments. -/
def stepLine (voices : VoicePair) (st : ParseState) (rawLine : List Char) : ParseState :=
  let line := pyStrip rawLine
  if line = [] then st
  else
    match matchSpeaker line with
    | some (g1, g2, _) =>
      let segs := flushSegments st
      let label := pyStrip g1
      let actualText := pyStrip g2
      { segments := segs
        currentSpeaker := some label
        currentText := if actualText = [] then [] else [actualText]
        voiceMap := assignVoice voices st.voiceMap label }
    | none => { st with currentText := st.currentText ++ [line] }

/-- The state at loop entry: no segments, no speaker, no fragments, no
bindings. -/
def initState : ParseState := ⟨[], none, [], []⟩

/-- The loop of `_parse_dialogue_script` over `script.strip().split('\n')`,
before the final flush. -/
def parseDialogueState (script : List Char) (language : String) : ParseState :=
  (splitOnNl (pyStrip script)).foldl (stepLine (voice_mappings language)) initState

/-- `AIService._parse_dialogue_script(script, language)`: run the loop, flush
the last open segment, and if no segment was produced fall back to a single
primary-voice segment whose text is `re.sub(speaker_pattern, r'\2', script).strip()`. -/
def _parse_dialogue_script (script : List Char) (language : String) : List DialogueInput :=
  let voices := voice_mappings language
  let dialogue := flushSegments (parseDialogueState script language)
  if dialogue = [] then
    [⟨none, pyStrip (reSubSpeaker script), voices.primary⟩]
  else dialogue

/-! ## Claim-side label classification (for the refinement claim C4)

`claimedLabelMatch` follows the words of the spec sentence "a leading run of
letters/digits/spaces (Latin or CJK) immediately followed by a colon (ASCII or
full-width)" — the run may begin with a digit.  `amendedLabelMatch` is the
corrected classification: the run must begin with a letter. -/

/-- A character allowed anywhere in the spec's claimed label run:
letter (Latin or CJK), digit, or space. -/
def isClaimLabelChar (c : Char) : Bool :=
  isLabelStart c || isAsciiDigit c || isPySpace c

/-- The classification claimed by the spec: the line begins with a nonempty
run of letters/digits/spaces immediately followed by a colon.  (Since a colon
is not a run character, the only candidate run is the maximal one.) -/
def claimedLabelMatch (l : List Char) : Bool :=
  let run := l.takeWhile isClaimLabelChar
  (!run.isEmpty) &&
    (match l.drop run.length with
     | r :: _ => isColon r
     | [] => false)

/-- The amended classification: the first character must be a letter (Latin
or CJK); the following run may contain letters, digits and whitespace; the
run is immediately followed by an ASCII or full-width colon. -/
def amendedLabelMatch (l : List Char) : Bool :=
  match l with
  | [] => false
  | a :: rest =>
    isLabelStart a &&
      (match rest.dropWhile isLabelChar with
       | r :: _ => isColon r
       | [] => false)

/-! ## Resource lifecycle: the creation handlers of src/backend/app/api/podcasts.py

The record store (`data_service`) and the blob store (`s3_storage`) are
external collaborators; their state is modelled as the sets of stored
identifiers (the record payloads play no role in the rollback property), and
each external write carries an injected outcome telling whether that write
succeeds (`save_podcast`/`save_job` return `False`, `s3_storage.upload_file`
returns `None`, on failure). -/

/-- The identifiers currently held by the record store and the blob store. -/
structure Store where
  podcasts : List String
  jobs : List String
  blobs : List String
deriving DecidableEq, Repr

/-- Injected outcomes of the three external writes a creation request makes:
the blob key returned by `s3_storage.upload_file` (`none` = failure), and
the success of `data_service.save_podcast` / `data_service.save_job`. -/
structure WriteOutcomes where
  uploadKey : Option String
  savePodcastOk : Bool
  saveJobOk : Bool

/-- What a creation handler returns: the identifier pair on success, or an
HTTP-500 error detail. -/
inductive CreateResult
  | ok (podcastId jobId : String)
  | err (detail : String)
deriving DecidableEq, Repr

/-- `s3_storage.upload_file(...)`: on success the fresh key is stored and
returned, on failure the store is unchanged and `None` is returned. -/
def s3_upload_file (st : Store) (result : Option String) : Option String × Store :=
  match result with
  | some key => (some key, { st with blobs := st.blobs ++ [key] })
  | none => (none, st)

/-- `s3_storage.delete_file(key)`. -/
def s3_delete_file (st : Store) (key : String) : Store :=
  { st with blobs := st.blobs.filter (fun k => k ≠ key) }

/-- `data_service.save_podcast(podcast_data)`: returns whether the write
succeeded. -/
def save_podcast (st : Store) (ok : Bool) (podcastId : String) : Bool × Store :=
  if ok then (true, { st with podcasts := st.podcasts ++ [podcastId] })
  else (false, st)

/-- `data_service.save_job(job_data)`. -/
def save_job (st : Store) (ok : Bool) (jobId : String) : Bool × Store :=
  if ok then (true, { st with jobs := st.jobs ++ [jobId] })
  else (false, st)

/-- `data_service.delete_podcast(podcast_id)`. -/
def delete_podcast_record (st : Store) (podcastId : String) : Store :=
  { st with podcasts := st.podcasts.filter (fun k => k ≠ podcastId) }

/-- `data_service.get_podcast(podcast_id)` succeeds iff the record is
present. -/
def get_podcast (st : Store) (podcastId : String) : Bool :=
  st.podcasts.contains podcastId

/-- `upload_file` (POST /upload), from the successful-validation point on:
upload the source blob, write the Content Item record (on failure: delete the
blob and error), write the Job record (on failure: delete the Content Item
record, delete the blob, and error), else return both identifiers. -/
def upload_file (st : Store) (w : WriteOutcomes) (podcastId jobId : String) :
    CreateResult × Store :=
  match s3_upload_file st w.uploadKey with
  | (none, st1) => (.err "文件上传到 S3 失败", st1)
  | (some key, st1) =>
    let r1 := save_podcast st1 w.savePodcastOk podcastId
    if r1.1 then
      let r2 := save_job r1.2 w.saveJobOk jobId
      if r2.1 then (.ok podcastId jobId, r2.2)
      else
        let st3 := delete_podcast_record r2.2 podcastId
        (.err "保存任务记录失败", s3_delete_file st3 key)
    else (.err "保存播客记录失败", s3_delete_file r1.2 key)

/-- `generate_podcast` (POST /generate): no source blob is uploaded; write
the Content Item record, then the Job record; on Job-write failure delete the
Content Item record and error. -/
def generate_podcast (st : Store) (savePodcastOk saveJobOk : Bool)
    (podcastId jobId : String) : CreateResult × Store :=
  let r1 := save_podcast st savePodcastOk podcastId
  if r1.1 then
    let r2 := save_job r1.2 saveJobOk jobId
    if r2.1 then (.ok podcastId jobId, r2.2)
    else (.err "保存任务记录失败", delete_podcast_record r2.2 podcastId)
  else (.err "保存播客记录失败", r1.2)

/-! ## Script generation: `AIService.generate_script_from_topic`

The external text-generation capability (`httpx.post` against the Gemini
endpoint) is an oracle mapping each issued prompt to a response.  Prompts are
kept symbolic: the two phases build textually different prompt templates, and
the phase-2 template embeds the phase-1 outline verbatim. -/

/-- A response of the external generation capability: an HTTP status error,
or a body whose extracted text may be empty. -/
inductive GenResponse
  | httpError (code : Nat) (body : String)
  | ok (text : String)
deriving DecidableEq, Repr

/-- The two prompts `generate_script_from_topic` can issue. -/
inductive GenPrompt
  | outline (topic style : String) (durationMinutes : Nat) (language : String)
  | fullScript (topic style : String) (durationMinutes : Nat) (language : String)
      (outlineText : String)
deriving DecidableEq, Repr

/-- `AIService._call_gemini_api`: raise on an HTTP status error; extract the
text and raise `"Gemini API 返回空响应"` when it is empty; otherwise return
the text. -/
def _call_gemini_api (gen : GenPrompt → GenResponse) (p : GenPrompt) :
    Except String String :=
  match gen p with
  | .httpError code body => .error ("HTTP错误 " ++ toString code ++ ": " ++ body)
  | .ok content =>
    if content = "" then .error "Gemini API 返回空响应"
    else .ok content

/-- `AIService.generate_script_from_topic`: phase 1 requests the outline,
phase 2 requests the full script from a prompt embedding the outline; any
failure aborts the whole operation.  The second component records the prompts
actually issued, in order. -/
def generate_script_from_topic (gen : GenPrompt → GenResponse)
    (topic style : String) (durationMinutes : Nat) (language : String) :
    Except String String × List GenPrompt :=
  let p1 := GenPrompt.outline topic style durationMinutes language
  match _call_gemini_api gen p1 with
  | .error e => (.error ("播客稿件生成失败: " ++ e), [p1])
  | .ok outlineText =>
    let p2 := GenPrompt.fullScript topic style durationMinutes language outlineText
    match _call_gemini_api gen p2 with
    | .error e => (.error ("播客稿件生成失败: " ++ e), [p1, p2])
    | .ok script => (.ok script, [p1, p2])

/-! ## Content extraction: the Gemini analysis fallback of
`ContentExtractor._analyze_audio_with_gemini` / `_analyze_video_with_gemini`

`json.loads` is an external library call, modelled as an oracle
`jsonLoads : String → Option AnalysisResult` (`none` = `json.JSONDecodeError`,
`some r` = the parsed structure).  Only the response-parsing tail of the two
methods is modelled: both receive the text extracted from the Gemini
response. -/

/-- The result dictionary shape of the extraction orchestrator (`duration`
is `0.0` in the source; it is an exact integer, modelled as `Int`). -/
structure AnalysisResult where
  transcript : String
  summary : String
  topics : List String
  insights : List String
  duration : Int
deriving DecidableEq, Repr

/-- Python `s.startswith(prefixStr)` on code-point lists. -/
def listStartsWith : List Char → List Char → Bool
  | _, [] => true
  | [], _ :: _ => false
  | c :: cs, p :: ps => c = p && listStartsWith cs ps

/-- `if content.startswith("```json"): content = content[7:]`. -/
def stripFenceJson (l : List Char) : List Char :=
  if listStartsWith l "```json".data then l.drop 7 else l

/-- `if content.startswith("```"): content = content[3:]`. -/
def stripFenceHead (l : List Char) : List Char :=
  if listStartsWith l "```".data then l.drop 3 else l

/-- `if content.endswith("```"): content = content[:-3]`
(`s.endswith(t)` is `s.reverse.startswith(t.reverse)`). -/
def stripFenceTail (l : List Char) : List Char :=
  if listStartsWith l.reverse "```".data.reverse then (l.reverse.drop 3).reverse else l

/-- The code-fence stripping both analyzers perform before `json.loads`:
strip, drop a leading ```` ```json ````, drop a leading ```` ``` ````, drop a
trailing ```` ``` ````, strip again. -/
def stripCodeFences (s : String) : String :=
  ⟨pyStrip (stripFenceTail (stripFenceHead (stripFenceJson (pyStrip s.data))))⟩

/-- The shared response-parsing tail of `_analyze_audio_with_gemini`:
raise on an empty extracted text; otherwise strip code fences and
`json.loads` the result; on `JSONDecodeError` return the degraded fallback
dictionary whose `transcript` is the de-fenced text. -/
def _analyze_audio_with_gemini (jsonLoads : String → Option AnalysisResult)
    (content : String) : Except String AnalysisResult :=
  if content = "" then .error "Gemini API 返回空响应"
  else
    match jsonLoads (stripCodeFences content) with
    | some result => .ok result
    | none =>
      .ok { transcript := stripCodeFences content
            summary := "内容分析失败"
            topics := []
            insights := []
            duration := 0 }

/-- The response-parsing tail of `_analyze_video_with_gemini` — duplicated
verbatim from the audio analyzer in the source. -/
def _analyze_video_with_gemini (jsonLoads : String → Option AnalysisResult)
    (content : String) : Except String AnalysisResult :=
  if content = "" then .error "Gemini API 返回空响应"
  else
    match jsonLoads (stripCodeFences content) with
    | some result => .ok result
    | none =>
      .ok { transcript := stripCodeFences content
            summary := "内容分析失败"
            topics := []
            insights := []
            duration := 0 }

/-! ## Remote video: `YouTubeExtractor.download_subtitles`

The module src/backend/app/services/youtube_extractor.py imports only
`tempfile`, `os`, `pathlib.Path`, `typing.{Dict, Any, Optional}`, `re`,
`json` and `app.config.settings`; the name `yt_dlp` is never imported, yet
`download_subtitles` evaluates `yt_dlp.YoutubeDL(ydl_opts)` inside its
`try:` block.  Evaluating an unbound global raises `NameError`, and the
method's catch-all `except Exception:` returns `None`. -/

/-- The global names that the module-level imports of youtube_extractor.py
bind. -/
def youtube_extractor_imports : List String :=
  ["tempfile", "os", "Path", "Dict", "Any", "Optional", "re", "json", "settings"]

/-- Outcome of a Python computation: a value, or a raised exception. -/
inductive PyResult (α : Type)
  | ok (val : α)
  | exn (message : String)
deriving DecidableEq, Repr

/-- The `try:` body of `download_subtitles`: it reaches
`with yt_dlp.YoutubeDL(ydl_opts) as ydl:` and must resolve the global name
`yt_dlp`.  Were the name bound, the actual download would run (abstracted as
the oracle `ytdlpFetch`, returning the cleaned caption text or `None` when no
subtitle file is produced); since it is not, `NameError` is raised. -/
def download_subtitles_try (ytdlpFetch : String → String → Option String)
    (url language : String) : PyResult (Option String) :=
  if youtube_extractor_imports.contains "yt_dlp" then
    .ok (ytdlpFetch url language)
  else
    .exn "NameError: name yt_dlp is not defined"

/-- `YouTubeExtractor.download_subtitles(url, language)`: the `try:` body,
with `except Exception:` converting any raised exception into a `None`
return. -/
def download_subtitles (ytdlpFetch : String → String → Option String)
    (url language : String) : Option String :=
  match download_subtitles_try ytdlpFetch url language with
  | .ok r => r
  | .exn _ => none

/-! # Theorems -/

/-! ## Helper lemmas -/

/-- Every element surviving `dropWhile` was in the original list. -/
lemma mem_of_mem_dropWhile {p : Char → Bool} {l : List Char} {a : Char}
    (h : a ∈ l.dropWhile p) : a ∈ l :=
  (List.dropWhile_sublist p).subset h

/-- `splitAtFirstNonLabel` is the `takeWhile`/`dropWhile` pair for the label
class. -/
lemma splitAtFirstNonLabel_eq (l : List Char) :
    splitAtFirstNonLabel l = (l.takeWhile isLabelChar, l.dropWhile isLabelChar) := by
  induction l with
  | nil => rfl
  | cons c cs ih =>
    by_cases h : isLabelChar c
    · simp [splitAtFirstNonLabel, h, ih, List.takeWhile_cons, List.dropWhile_cons]
    · simp [splitAtFirstNonLabel, h, List.takeWhile_cons, List.dropWhile_cons]

/-- On newline-free text the tail regex `\s*(.*)$` always matches, group 2
being everything after the greedy whitespace run. -/
lemma tailMatch_of_no_newline (rs : List Char) (h : '\n' ∉ rs) :
    tailMatch rs = some (rs.dropWhile isPySpace, []) := by
  have hws : '\n' ∉ rs.dropWhile isPySpace := fun hmem => h (mem_of_mem_dropWhile hmem)
  have htake : (rs.dropWhile isPySpace).takeWhile (fun c => c ≠ '\n') = rs.dropWhile isPySpace :=
    List.takeWhile_eq_self_iff.mpr (by intro x hx; simp; exact fun hx2 => hws (hx2 ▸ hx))
  have hdrop : (rs.dropWhile isPySpace).dropWhile (fun c => c ≠ '\n') = [] :=
    List.dropWhile_eq_nil_iff.mpr (by intro x hx; simp; exact fun hx2 => hws (hx2 ▸ hx))
  unfold tailMatch
  rw [hdrop, htake]
  simp

/-! ## C1 — segmenter speaker-to-voice binding on the three-line example -/

/-- C1: on `"Alex: Hi.\nEmma: Hello.\nAlex: Great to be here."` with language
`"en"`, the segmenter produces exactly 3 segments in order; segments 1 and 3
are bound to the primary voice for `"en"` and segment 2 to the secondary
voice; and every segment's text is exactly the part after the label
(`"Hi."`, `"Hello."`, `"Great to be here."`), so no text field contains its
speaker label. -/
theorem C1_speaker_to_voice_binding :
    _parse_dialogue_script "Alex: Hi.\nEmma: Hello.\nAlex: Great to be here.".data "en" =
      [⟨some "Alex".data, "Hi.".data, (voice_mappings "en").primary⟩,
       ⟨some "Emma".data, "Hello.".data, (voice_mappings "en").secondary⟩,
       ⟨some "Alex".data, "Great to be here.".data, (voice_mappings "en").primary⟩] := by
  decide

/-! ## C3 — same-speaker merging -/

/-- C3 counterexample: two adjacent lines each labelled `"Alex:"` are NOT
merged into one segment — the script `"Alex: Hi\nAlex: again"` yields two
adjacent segments that share the speaker `"Alex"` (and its voice), refuting
both "they appear in a single output segment" and "no two adjacent output
segments share a speaker". -/
theorem C3_counterexample :
    _parse_dialogue_script "Alex: Hi\nAlex: again".data "en" =
      [⟨some "Alex".data, "Hi".data, (voice_mappings "en").primary⟩,
       ⟨some "Alex".data, "again".data, (voice_mappings "en").primary⟩] := by
  decide

/-- C3 amended: only unlabeled continuation lines are merged into the open
segment — a nonblank line that does not match the speaker-label pattern
closes nothing and opens nothing, it is appended to the current speaker's
fragment buffer; every label-matching line (even a repeated label of the
same speaker) closes the open segment, so adjacent output segments can share
a speaker. -/
theorem C3_continuation_merge_amended (voices : VoicePair) (st : ParseState)
    (rawLine : List Char)
    (hne : pyStrip rawLine ≠ [])
    (hnomatch : matchSpeaker (pyStrip rawLine) = none) :
    stepLine voices st rawLine =
      { st with currentText := st.currentText ++ [pyStrip rawLine] } := by
  unfold stepLine
  rw [if_neg hne, hnomatch]

/-- Witness for `C3_continuation_merge_amended` at the continuation line
`"more stuff"` from the empty initial state. -/
theorem C3_amended_witness :
    stepLine (voice_mappings "en") initState "more stuff".data =
      { initState with currentText := initState.currentText ++ ["more stuff".data] } :=
  C3_continuation_merge_amended (voice_mappings "en") initState "more stuff".data
    (by decide) (by decide)

/-! ## C4 — classification of the speaker-label pattern -/

/-- C4 counterexample: `"2nd Host: hello"` begins with a run of
letters/digits/spaces immediately followed by a colon (the classification the
claim asserts), yet the segmenter's regex does not match it: the first label
character class `[A-Za-z一-龥]` admits no digit. -/
theorem C4_counterexample :
    claimedLabelMatch "2nd Host: hello".data = true ∧
    matchSpeaker "2nd Host: hello".data = none := by
  decide

/-- C4 amended: a (newline-free) line is classified as a speaker-label match
exactly when its first character is a letter (Latin or CJK), the following
maximal run of letters/digits/whitespace is immediately followed by an ASCII
or full-width colon; in particular a line whose would-be label begins with a
digit is NOT a match. -/
theorem C4_label_classification_amended (l : List Char) (h : '\n' ∉ l) :
    (matchSpeaker l).isSome = amendedLabelMatch l := by
  cases l with
  | nil => rfl
  | cons a rest =>
    simp only [matchSpeaker, amendedLabelMatch, splitAtFirstNonLabel_eq]
    by_cases ha : isLabelStart a
    · simp only [ha, if_true, Bool.true_and]
      cases hd : rest.dropWhile isLabelChar with
      | nil => simp
      | cons r rs =>
        by_cases hr : isColon r
        · have hnl : '\n' ∉ rs := fun hmem =>
            h (List.mem_cons_of_mem a
              (mem_of_mem_dropWhile (hd ▸ List.mem_cons_of_mem r hmem)))
          simp [hr, tailMatch_of_no_newline rs hnl]
        · simp [hr]
    · simp [ha]

/-- Witness for `C4_label_classification_amended` at the line
`"Host A: hi"` (a match) — both sides evaluate to `true`. -/
theorem C4_amended_witness :
    (matchSpeaker "Host A: hi".data).isSome = amendedLabelMatch "Host A: hi".data :=
  C4_label_classification_amended "Host A: hi".data (by decide)

/-! ## C10 — the native-captions path of the remote-video extractor -/

/-- C10: for every URL and language (and whatever the hypothetical download
would return), `download_subtitles` returns `None`: its body references the
global name `yt_dlp`, which youtube_extractor.py never imports, so the body
raises `NameError` and the catch-all handler converts it to `None`. -/
theorem C10_download_subtitles_always_none
    (ytdlpFetch : String → String → Option String) (url language : String) :
    download_subtitles ytdlpFetch url language = none :=
  rfl

/-! ## C5 — first-seen-order voice assignment -/

/-- The parity invariant of the voice registry built by the loop: the label
at (0-based) position `i` of the first-seen-order list is bound to the
primary voice when `i` is even and to the secondary voice when `i` is odd. -/
def VoiceParityInv (voices : VoicePair) (m : List (List Char × String)) : Prop :=
  ∀ i, i < m.length →
    m[i]?.map Prod.snd =
      some (if i % 2 = 0 then voices.primary else voices.secondary)

/-- The three-way `len(speaker_order)` test of the source collapses to the
parity of the previous length. -/
lemma pickVoice_succ (voices : VoicePair) (n : Nat) :
    pickVoice voices (n + 1) =
      if n % 2 = 0 then voices.primary else voices.secondary := by
  unfold pickVoice
  rcases n with _ | _ | n
  · simp
  · simp
  · have h1 : n + 2 + 1 ≠ 1 := by omega
    have h2 : n + 2 + 1 ≠ 2 := by omega
    simp only [h1, h2, if_false]
    by_cases h : (n + 2) % 2 = 0
    · have h3 : (n + 2 + 1) % 2 = 1 := by omega
      simp [h, h3]
    · have h3 : (n + 2 + 1) % 2 ≠ 1 := by omega
      simp [h, h3]

/-- A label absent from the registry is exactly one on which lookup fails. -/
lemma lookupVoice_none_iff (m : List (List Char × String)) (label : List Char) :
    lookupVoice m label = none ↔ label ∉ m.map Prod.fst := by
  induction m with
  | nil => simp [lookupVoice]
  | cons kv rest ih =>
    obtain ⟨k, v⟩ := kv
    by_cases hk : k = label
    · simp [lookupVoice, hk]
    · simp only [lookupVoice, hk, if_false, List.map_cons, List.mem_cons]
      rw [ih]
      constructor
      · intro h hmem
        rcases hmem with h1 | h1
        · exact hk h1.symm
        · exact h h1
      · intro h h1
        exact h (Or.inr h1)

/-- Binding a label preserves the parity invariant: an unseen label is
appended at position `m.length` with the voice picked for the new length
`m.length + 1` of `speaker_order`. -/
lemma voiceParity_assignVoice (voices : VoicePair) (m : List (List Char × String))
    (label : List Char) (hm : VoiceParityInv voices m) :
    VoiceParityInv voices (assignVoice voices m label) := by
  cases hl : lookupVoice m label with
  | some v =>
    have ha : assignVoice voices m label = m := by
      unfold assignVoice; rw [hl]
    rw [ha]; exact hm
  | none =>
    have ha : assignVoice voices m label =
        m ++ [(label, pickVoice voices (m.length + 1))] := by
      unfold assignVoice; rw [hl]
    rw [ha]
    intro i hlt
    simp only [List.length_append, List.length_cons, List.length_nil] at hlt
    rcases Nat.lt_or_ge i m.length with hi | hi
    · rw [List.getElem?_append_left hi]
      exact hm i hi
    · have hi2 : i = m.length := by omega
      subst hi2
      rw [List.getElem?_concat_length]
      rw [pickVoice_succ]
      rfl

/-- Binding a label preserves distinctness of the registered labels. -/
lemma nodupKeys_assignVoice (voices : VoicePair) (m : List (List Char × String))
    (label : List Char) (h : (m.map Prod.fst).Nodup) :
    ((assignVoice voices m label).map Prod.fst).Nodup := by
  cases hl : lookupVoice m label with
  | some v =>
    have ha : assignVoice voices m label = m := by
      unfold assignVoice; rw [hl]
    rw [ha]; exact h
  | none =>
    have ha : assignVoice voices m label =
        m ++ [(label, pickVoice voices (m.length + 1))] := by
      unfold assignVoice; rw [hl]
    rw [ha, List.map_append, List.nodup_append]
    refine ⟨h, List.nodup_singleton _, ?_⟩
    intro a ha1 ha2
    simp only [List.map_cons, List.map_nil, List.mem_singleton] at ha2
    rw [ha2] at ha1
    exact ((lookupVoice_none_iff m label).1 hl) ha1

/-- One loop iteration preserves both registry invariants. -/
lemma voiceMap_inv_stepLine (voices : VoicePair) (st : ParseState) (rawLine : List Char)
    (hm : VoiceParityInv voices st.voiceMap)
    (hn : (st.voiceMap.map Prod.fst).Nodup) :
    VoiceParityInv voices (stepLine voices st rawLine).voiceMap ∧
    ((stepLine voices st rawLine).voiceMap.map Prod.fst).Nodup := by
  unfold stepLine
  by_cases he : pyStrip rawLine = []
  · rw [if_pos he]; exact ⟨hm, hn⟩
  · rw [if_neg he]
    cases hms : matchSpeaker (pyStrip rawLine) with
    | none => exact ⟨hm, hn⟩
    | some g =>
      obtain ⟨g1, g2, tr⟩ := g
      exact ⟨voiceParity_assignVoice voices st.voiceMap (pyStrip g1) hm,
             nodupKeys_assignVoice voices st.voiceMap (pyStrip g1) hn⟩

/-- Folding the loop over any line list preserves both registry invariants. -/
lemma voiceMap_inv_foldl (voices : VoicePair) (lines : List (List Char)) :
    ∀ st : ParseState, VoiceParityInv voices st.voiceMap →
      (st.voiceMap.map Prod.fst).Nodup →
      VoiceParityInv voices ((lines.foldl (stepLine voices) st).voiceMap) ∧
      (((lines.foldl (stepLine voices) st).voiceMap.map Prod.fst).Nodup) := by
  induction lines with
  | nil => intro st h1 h2; exact ⟨h1, h2⟩
  | cons l ls ih =>
    intro st h1 h2
    have hp := voiceMap_inv_stepLine voices st l h1 h2
    exact ih _ hp.1 hp.2

/-- C5: the voice registry built by the segmenter lists the distinct speaker
labels in first-seen order (each label appears exactly once, so its binding
is the one fixed at its first appearance), and the label at 0-based position
`i` is bound to the primary voice when `i` is even (1st, 3rd, … distinct
label) and to the secondary voice when `i` is odd (2nd, 4th, …). -/
theorem C5_first_seen_parity_binding (script : List Char) (language : String)
    (i : Nat) (h : i < (parseDialogueState script language).voiceMap.length) :
    ((parseDialogueState script language).voiceMap[i]?).map Prod.snd =
      some (if i % 2 = 0 then (voice_mappings language).primary
            else (voice_mappings language).secondary) ∧
    (((parseDialogueState script language).voiceMap.map Prod.fst).Nodup) := by
  have hinit1 : VoiceParityInv (voice_mappings language) initState.voiceMap := by
    intro j hj
    simp [initState] at hj
  have hinit2 : ((initState.voiceMap).map Prod.fst).Nodup := by
    simp [initState]
  have hf := voiceMap_inv_foldl (voice_mappings language)
    (splitOnNl (pyStrip script)) initState hinit1 hinit2
  exact ⟨hf.1 i h, hf.2⟩

/-- Witness for `C5_first_seen_parity_binding`: in a three-speaker script the
3rd distinct label (`"Bob"`, position 2) is bound to the primary voice. -/
theorem C5_witness :
    ((parseDialogueState "Alex: a\nEmma: b\nBob: c".data "en").voiceMap[2]?).map Prod.snd =
      some (if 2 % 2 = 0 then (voice_mappings "en").primary
            else (voice_mappings "en").secondary) ∧
    (((parseDialogueState "Alex: a\nEmma: b\nBob: c".data "en").voiceMap.map Prod.fst).Nodup) :=
  C5_first_seen_parity_binding "Alex: a\nEmma: b\nBob: c".data "en" 2 (by decide)

/-! ## C6 — the zero-segments fallback -/

/-- When no line of the loop matches the speaker pattern, the loop produces
no segment and closes no speaker. -/
lemma no_label_foldl (voices : VoicePair) :
    ∀ (lines : List (List Char)) (st : ParseState),
      (∀ l ∈ lines, matchSpeaker (pyStrip l) = none) →
      st.segments = [] → st.currentSpeaker = none →
      ((lines.foldl (stepLine voices) st).segments = [] ∧
       (lines.foldl (stepLine voices) st).currentSpeaker = none) := by
  intro lines
  induction lines with
  | nil => intro st _ h1 h2; exact ⟨h1, h2⟩
  | cons l ls ih =>
    intro st h h1 h2
    have hl : matchSpeaker (pyStrip l) = none := h l (List.mem_cons_self l ls)
    have hls : ∀ x ∈ ls, matchSpeaker (pyStrip x) = none :=
      fun x hx => h x (List.mem_cons_of_mem l hx)
    have hst : (stepLine voices st l).segments = [] ∧
        (stepLine voices st l).currentSpeaker = none := by
      unfold stepLine
      by_cases he : pyStrip l = []
      · rw [if_pos he]; exact ⟨h1, h2⟩
      · rw [if_neg he, hl]; exact ⟨h1, h2⟩
    exact ih (stepLine voices st l) hls hst.1 hst.2

/-- A state with no open speaker flushes to its own segment list. -/
lemma flushSegments_of_no_speaker (st : ParseState) (h : st.currentSpeaker = none) :
    flushSegments st = st.segments := by
  unfold flushSegments
  rw [h]

/-- C6 counterexample: the script `"A\n:x"` is non-empty and none of its
lines matches the speaker-label pattern (line `"A"` has no colon, line
`":x"` does not start with a letter), yet the single fallback segment's text
is `"x"`, not the full trimmed input `"A\n:x"`: the `re.sub` strip is applied
to the raw script, where the label run can cross the newline (`\s` matches
`'\n'`), so the prefix `"A\n:"` is deleted. -/
theorem C6_counterexample :
    (pyStrip "A\n:x".data ≠ [] ∧
     (∀ l ∈ splitOnNl (pyStrip "A\n:x".data), matchSpeaker (pyStrip l) = none)) ∧
    _parse_dialogue_script "A\n:x".data "en" =
      [⟨none, "x".data, (voice_mappings "en").primary⟩] ∧
    pyStrip "A\n:x".data = "A\n:x".data ∧
    "x".data ≠ "A\n:x".data := by
  refine ⟨⟨by decide, ?_⟩, by decide, by decide, by decide⟩
  decide

/-- C6 amended: for every non-empty script in which no line matches the
speaker-label pattern AND the raw script does not itself match the
(newline-crossing) pattern at its start, the segmenter produces exactly one
segment, bound to the primary voice of the language, whose text is the full
trimmed input. (The added raw-script condition is forced by
`C6_counterexample`: `re.sub` operates on the raw multi-line script.) -/
theorem C6_fallback_amended (script : List Char) (language : String)
    (_hne : pyStrip script ≠ [])
    (hlines : ∀ l ∈ splitOnNl (pyStrip script), matchSpeaker (pyStrip l) = none)
    (hraw : matchSpeaker script = none) :
    _parse_dialogue_script script language =
      [⟨none, pyStrip script, (voice_mappings language).primary⟩] := by
  have hf := no_label_foldl (voice_mappings language)
    (splitOnNl (pyStrip script)) initState hlines rfl rfl
  unfold _parse_dialogue_script
  have hflush : flushSegments (parseDialogueState script language) = [] := by
    unfold parseDialogueState
    rw [flushSegments_of_no_speaker _ hf.2]
    exact hf.1
  rw [hflush]
  have hsub : reSubSpeaker script = script := by
    unfold reSubSpeaker; rw [hraw]
  rw [if_pos rfl, hsub]

/-- Witness for `C6_fallback_amended` on a label-free two-line paragraph. -/
theorem C6_amended_witness :
    _parse_dialogue_script "hello world\nsecond line".data "en" =
      [⟨none, pyStrip "hello world\nsecond line".data, (voice_mappings "en").primary⟩] :=
  C6_fallback_amended "hello world\nsecond line".data "en" (by decide) (by decide) (by decide)

/-! ## C7 — non-empty segment text -/

/-- C7 counterexample: the empty script exercises the zero-segments fallback
and yields one segment whose text is empty — the returned list does contain
a segment with empty text. -/
theorem C7_counterexample :
    _parse_dialogue_script "".data "en" =
      [⟨none, [], (voice_mappings "en").primary⟩] := by
  decide

/-- Flushing preserves "every segment has non-empty text": a segment is only
appended after the `if text:` check. -/
lemma flush_text_ne_nil (st : ParseState)
    (h : ∀ seg ∈ st.segments, seg.text ≠ []) :
    ∀ seg ∈ flushSegments st, seg.text ≠ [] := by
  unfold flushSegments
  split
  · exact h
  · split
    · exact h
    · split
      · exact h
      · next h2 =>
          intro seg hseg
          rcases List.mem_append.1 hseg with hs | hs
          · exact h seg hs
          · rw [List.mem_singleton] at hs
            rw [hs]
            exact h2

/-- One loop iteration preserves "every segment has non-empty text". -/
lemma step_text_ne_nil (voices : VoicePair) (st : ParseState) (rawLine : List Char)
    (h : ∀ seg ∈ st.segments, seg.text ≠ []) :
    ∀ seg ∈ (stepLine voices st rawLine).segments, seg.text ≠ [] := by
  unfold stepLine
  by_cases he : pyStrip rawLine = []
  · rw [if_pos he]; exact h
  · rw [if_neg he]
    cases hms : matchSpeaker (pyStrip rawLine) with
    | none => exact h
    | some g =>
      obtain ⟨g1, g2, tr⟩ := g
      exact flush_text_ne_nil st h

/-- The loop preserves "every segment has non-empty text". -/
lemma foldl_text_ne_nil (voices : VoicePair) (lines : List (List Char)) :
    ∀ st : ParseState, (∀ seg ∈ st.segments, seg.text ≠ []) →
      ∀ seg ∈ (lines.foldl (stepLine voices) st).segments, seg.text ≠ [] := by
  induction lines with
  | nil => intro st h; exact h
  | cons l ls ih =>
    intro st h
    exact ih (stepLine voices st l) (step_text_ne_nil voices st l h)

/-- C7 amended: every segment produced by the labelled-turn loop (i.e. every
returned segment carrying a speaker label) has non-empty text; only the
zero-segments fallback segment (speaker `none`) can carry empty text, and
does so exactly for inputs like the empty script of `C7_counterexample`. -/
theorem C7_nonempty_text_amended (script : List Char) (language : String)
    (seg : DialogueInput) (hmem : seg ∈ _parse_dialogue_script script language)
    (hsp : seg.speaker ≠ none) :
    seg.text ≠ [] := by
  unfold _parse_dialogue_script at hmem
  by_cases hd : flushSegments (parseDialogueState script language) = []
  · rw [hd, if_pos rfl, List.mem_singleton] at hmem
    rw [hmem] at hsp
    exact absurd rfl hsp
  · rw [if_neg hd] at hmem
    have hloop : ∀ s ∈ (parseDialogueState script language).segments, s.text ≠ [] := by
      unfold parseDialogueState
      exact foldl_text_ne_nil (voice_mappings language) (splitOnNl (pyStrip script))
        initState (by intro s hs; simp [initState] at hs)
    exact flush_text_ne_nil (parseDialogueState script language) hloop seg hmem

/-- Witness for `C7_nonempty_text_amended` at the first segment of the C1
script. -/
theorem C7_amended_witness :
    (⟨some "Alex".data, "Hi.".data, (voice_mappings "en").primary⟩ : DialogueInput).text ≠ [] :=
  C7_nonempty_text_amended "Alex: Hi.\nEmma: Hello.".data "en"
    ⟨some "Alex".data, "Hi.".data, (voice_mappings "en").primary⟩
    (by decide) (by decide)

/-! ## C2 — rollback when the Job write fails -/

/-- Deleting every record with a given identifier makes that identifier
unretrievable, whatever was stored before. -/
lemma contains_filter_ne_self (l : List String) (x : String) :
    (l.filter (fun k => k ≠ x)).contains x = false := by
  induction l with
  | nil => rfl
  | cons a l ih =>
    by_cases h : a = x
    · simp [List.filter_cons, h, ih]
    · simp [List.filter_cons, h, List.contains_cons, ih, Ne.symm h]

/-- C2: whenever the Content Item record write succeeds and the subsequent
Job record write fails, both creation handlers return an error; afterwards
the Content Item is not retrievable, and (for the upload handler, which
freshly uploaded a source blob) the blob is no longer in the blob store.
The freshness hypothesis mirrors `uuid.uuid4()` generating an unused
identifier. -/
theorem C2_job_write_failure_rollback (st : Store) (w : WriteOutcomes)
    (podcastId jobId : String)
    (hpod : w.savePodcastOk = true) (hjob : w.saveJobOk = false)
    (hfresh : get_podcast st podcastId = false) :
    ((∃ d, (upload_file st w podcastId jobId).1 = CreateResult.err d) ∧
     get_podcast (upload_file st w podcastId jobId).2 podcastId = false ∧
     (∀ key, w.uploadKey = some key →
       (upload_file st w podcastId jobId).2.blobs.contains key = false)) ∧
    ((∃ d, (generate_podcast st w.savePodcastOk w.saveJobOk podcastId jobId).1 =
        CreateResult.err d) ∧
     get_podcast (generate_podcast st w.savePodcastOk w.saveJobOk podcastId jobId).2
        podcastId = false) := by
  obtain ⟨uk, sp, sj⟩ := w
  simp only at hpod hjob
  subst hpod
  subst hjob
  cases uk with
  | none =>
    refine ⟨⟨⟨"文件上传到 S3 失败", ?_⟩, ?_, ?_⟩, ⟨⟨"保存任务记录失败", ?_⟩, ?_⟩⟩
    · rfl
    · exact hfresh
    · intro key hk; cases hk
    · rfl
    · simp [generate_podcast, save_podcast, save_job, delete_podcast_record,
        get_podcast, contains_filter_ne_self]
  | some key =>
    refine ⟨⟨⟨"保存任务记录失败", ?_⟩, ?_, ?_⟩, ⟨⟨"保存任务记录失败", ?_⟩, ?_⟩⟩
    · rfl
    · simp [upload_file, s3_upload_file, save_podcast, save_job,
        delete_podcast_record, s3_delete_file, get_podcast, contains_filter_ne_self]
    · intro k hk
      cases hk
      simp [upload_file, s3_upload_file, save_podcast, save_job,
        delete_podcast_record, s3_delete_file, contains_filter_ne_self]
    · rfl
    · simp [generate_podcast, save_podcast, save_job, delete_podcast_record,
        get_podcast, contains_filter_ne_self]

/-- Witness for `C2_job_write_failure_rollback`: a store already holding one
other podcast and one other blob, a successful upload and podcast write, and
a failing job write. -/
theorem C2_rollback_witness :
    ((∃ d, (upload_file ⟨["p0"], ["j0"], ["b0"]⟩ ⟨some "b1", true, false⟩ "p1" "j1").1 =
        CreateResult.err d) ∧
     get_podcast (upload_file ⟨["p0"], ["j0"], ["b0"]⟩ ⟨some "b1", true, false⟩ "p1" "j1").2
        "p1" = false ∧
     (∀ key, (⟨some "b1", true, false⟩ : WriteOutcomes).uploadKey = some key →
       (upload_file ⟨["p0"], ["j0"], ["b0"]⟩ ⟨some "b1", true, false⟩ "p1" "j1").2.blobs.contains
          key = false)) ∧
    ((∃ d, (generate_podcast ⟨["p0"], ["j0"], ["b0"]⟩ true false "p1" "j1").1 =
        CreateResult.err d) ∧
     get_podcast (generate_podcast ⟨["p0"], ["j0"], ["b0"]⟩ true false "p1" "j1").2
        "p1" = false) :=
  C2_job_write_failure_rollback ⟨["p0"], ["j0"], ["b0"]⟩ ⟨some "b1", true, false⟩
    "p1" "j1" rfl rfl (by decide)

/-! ## C8 — degraded fallback of the Gemini analysis -/

/-- C8 counterexample: a non-empty response wrapped in a markdown code fence
whose body is not JSON (`json.loads("not json")` raises, modelled by the
oracle returning `none`). The degraded result's `transcript` is the
fence-stripped text `"not json"`, NOT the raw response text — refuting
"transcript equals the raw response text". -/
theorem C8_counterexample :
    _analyze_audio_with_gemini (fun _ => none) "```json\nnot json\n```" =
      Except.ok ⟨"not json", "内容分析失败", [], [], 0⟩ ∧
    ("not json" : String) ≠ "```json\nnot json\n```" := by
  constructor
  · unfold _analyze_audio_with_gemini
    rw [if_neg (by decide),
        show stripCodeFences "```json\nnot json\n```" = "not json" from by decide]
  · decide

/-- C8 amended: for every non-empty analysis response whose fence-stripped
text `json.loads` rejects, both analyzers return (without raising) the
degraded result whose `transcript` is the fence-stripped, trimmed response
text, with empty `topics`/`insights` and the fixed "analysis failed"
summary. -/
theorem C8_degraded_fallback_amended (jsonLoads : String → Option AnalysisResult)
    (content : String)
    (hne : content ≠ "")
    (hfail : jsonLoads (stripCodeFences content) = none) :
    _analyze_audio_with_gemini jsonLoads content =
      Except.ok ⟨stripCodeFences content, "内容分析失败", [], [], 0⟩ ∧
    _analyze_video_with_gemini jsonLoads content =
      Except.ok ⟨stripCodeFences content, "内容分析失败", [], [], 0⟩ := by
  constructor
  · unfold _analyze_audio_with_gemini
    rw [if_neg hne, hfail]
  · unfold _analyze_video_with_gemini
    rw [if_neg hne, hfail]

/-- Witness for `C8_degraded_fallback_amended` at the response
`"not json"` with the oracle that rejects everything (as `json.loads`
rejects this text). -/
theorem C8_amended_witness :
    _analyze_audio_with_gemini (fun _ => none) "not json" =
      Except.ok ⟨stripCodeFences "not json", "内容分析失败", [], [], 0⟩ ∧
    _analyze_video_with_gemini (fun _ => none) "not json" =
      Except.ok ⟨stripCodeFences "not json", "内容分析失败", [], [], 0⟩ :=
  C8_degraded_fallback_amended (fun _ => none) "not json" (by decide) rfl

/-! ## C9 — phase-1 failure aborts script generation -/

/-- C9: for every topic/style/duration/language, if the phase-1 outline call
yields empty output or an HTTP error, `generate_script_from_topic` returns a
generation-failed error, and the only prompt ever issued is the phase-1
outline prompt — the phase-2 full-script call is never attempted and no
partial script is returned. -/
theorem C9_phase1_failure_aborts (gen : GenPrompt → GenResponse)
    (topic style : String) (durationMinutes : Nat) (language : String)
    (h : gen (GenPrompt.outline topic style durationMinutes language) = GenResponse.ok "" ∨
         ∃ code body,
           gen (GenPrompt.outline topic style durationMinutes language) =
             GenResponse.httpError code body) :
    (∃ e, (generate_script_from_topic gen topic style durationMinutes language).1 =
        Except.error e) ∧
    (generate_script_from_topic gen topic style durationMinutes language).2 =
      [GenPrompt.outline topic style durationMinutes language] := by
  rcases h with h | ⟨code, body, h⟩
  · constructor
    · exact ⟨"播客稿件生成失败: Gemini API 返回空响应", by
        simp [generate_script_from_topic, _call_gemini_api, h]⟩
    · simp [generate_script_from_topic, _call_gemini_api, h]
  · constructor
    · refine ⟨"播客稿件生成失败: " ++ ("HTTP错误 " ++ toString code ++ ": " ++ body), ?_⟩
      simp [generate_script_from_topic, _call_gemini_api, h]
    · simp [generate_script_from_topic, _call_gemini_api, h]

/-- Witness for `C9_phase1_failure_aborts`: a generation oracle that always
returns empty text. -/
theorem C9_witness :
    (∃ e, (generate_script_from_topic (fun _ => GenResponse.ok "") "t" "Conversation" 5 "en").1 =
        Except.error e) ∧
    (generate_script_from_topic (fun _ => GenResponse.ok "") "t" "Conversation" 5 "en").2 =
      [GenPrompt.outline "t" "Conversation" 5 "en"] :=
  C9_phase1_failure_aborts (fun _ => GenResponse.ok "") "t" "Conversation" 5 "en" (Or.inl rfl)
